import Mathlib

/-!
Verification of todotxt-machine's CLI layer (todotxt_machine/cli.py), and of
the task line parser/serializer required by the round-trip law: a shallow
embedding of the relevant functions, followed by theorems about them.
-/

set_option linter.unusedVariables false

namespace TodotxtMachine

/-! ## Definitions: the file-watch handler (cli.py lines 48-51) -/

/-- A file-system change event as the watchdog library delivers it to
`AutoLoad.on_modified` (cli.py line 49): the event carries a payload (the
source path and a directory flag), which the handler may or may not consult. -/
structure FileEvent where
  srcPath : String
  isDirectory : Bool
deriving DecidableEq

/-- The observable actions the file-watch callback can take.  `postSignal`
names the action of merely posting a wake-up signal for the UI loop to drain
at a safe point; `reloadTodosFromFile` and `drawScreen` are the two calls the
handler in cli.py actually makes (lines 50 and 51). -/
inductive HandlerAction where
  | reloadTodosFromFile
  | drawScreen
  | postSignal
deriving DecidableEq

namespace AutoLoad

/-- cli.py lines 49-51: the body of `AutoLoad.on_modified` is
`view.reload_todos_from_file()` followed by `view.loop.draw_screen()`; the
`event` parameter is never consulted. -/
def on_modified (event : FileEvent) : List HandlerAction :=
  [HandlerAction.reloadTodosFromFile, HandlerAction.drawScreen]

end AutoLoad

/-- Whether an action is the direct task-list reload call. -/
def isReload : HandlerAction → Bool
  | HandlerAction.reloadTodosFromFile => true
  | _ => false

/-- The number of task-list reloads triggered when the watcher delivers a
burst of consecutive change events: each event invokes `AutoLoad.on_modified`
once (watchdog delivers every event to the handler), and we count the total
number of reload actions performed. -/
def reloadsTriggered (burst : List FileEvent) : Nat :=
  (burst.map fun e => ((AutoLoad.on_modified e).filter isReload).length).sum

/-! ## Definitions: startup load and shutdown (cli.py lines 145-150, 173-182) -/

/-- A Python EnvironmentError / IOError raised by file I/O. -/
inductive IOErr where
  | envError (msg : String)
deriving DecidableEq

/-- The core object constructed at cli.py line 147:
`Todos(todotxt_file.readlines(), todotxt_file_path, donetxt_file_path)`.
Only the constructor arguments matter here. -/
structure Todos where
  todo_items : List String
  file_path : String
  archive_path : Option String
deriving DecidableEq

/-- Outcome of the startup load step: either the process has terminated with
an exit code (via `exit_with_error`, cli.py lines 53-56, which writes the
message and calls `exit(1)`, never returning), or execution continues with a
constructed core. -/
inductive LoadOutcome where
  | exited (code : Nat)
  | running (todos : Todos)
deriving DecidableEq

/-- cli.py lines 145-150: `try: open(todotxt_file_path); todos = Todos(...)`
with `except EnvironmentError: exit_with_error(...); todos = Todos([], ...)`.
Because `exit_with_error` calls `exit(1)` and never returns, the except
branch terminates the process with code 1, and the assignment
`todos = Todos([], todotxt_file_path, donetxt_file_path)` on line 150 is
unreachable. -/
def loadTodosStep (todotxt_file_path : String) (donetxt_file_path : Option String)
    (openResult : Except IOErr (List String)) : LoadOutcome :=
  match openResult with
  | Except.ok fileLines =>
      LoadOutcome.running ⟨fileLines, todotxt_file_path, donetxt_file_path⟩
  | Except.error _ => LoadOutcome.exited 1

/-- The observable events of main's shutdown sequence (cli.py lines 173-182). -/
inductive ShutdownEv where
  | observerStop
  | observerJoin
  | saveAttempt
  | exitNormal
  | uncaughtError (e : IOErr)
deriving DecidableEq

/-- cli.py lines 173-182: once `view.main` (the UI event loop) returns, main
runs `observer.stop()`, `observer.join()`, the final synchronous
`view.todos.save()`, and then `exit(0)`.  If `save` raises, `exit(0)` is not
reached and the exception propagates out of `main`, terminating the process
with the error reported (a traceback on stderr). -/
def mainShutdown (saveResult : Except IOErr Unit) : List ShutdownEv :=
  ShutdownEv.observerStop :: ShutdownEv.observerJoin :: ShutdownEv.saveAttempt ::
    (match saveResult with
     | Except.ok _ => [ShutdownEv.exitNormal]
     | Except.error e => [ShutdownEv.uncaughtError e])

/-! ## Definitions: path resolution and validation (cli.py lines 59-74) -/

/-- The pieces of the file system `get_real_path` consults.  `resolve` is
`os.path.realpath(os.path.expanduser(os.path.expandvars(.)))` (cli.py line
61); `isdir`, `pathExists` and `dirname` are `os.path.isdir`,
`os.path.exists` and `os.path.dirname`. -/
structure FS where
  isdir : String → Bool
  pathExists : String → Bool
  dirname : String → String
  resolve : String → String

/-- The effect of `open(file_path, 'a').close()` (cli.py line 70) on a
missing path: afterwards an (empty) file exists at that path; nothing else
changes. -/
def createEmptyFile (fs : FS) (p : String) : FS :=
  { fs with pathExists := fun q => q == p || fs.pathExists q }

/-- Result of `get_real_path`: the (possibly updated) file system and the
returned path, or process termination via `exit_with_error` (exit code 1). -/
inductive PathResult where
  | ok (fs : FS) (path : String)
  | exited (code : Nat)

/-- cli.py lines 59-74: resolve the filename, exit if the resolved path is a
directory; if the path does not exist, create an empty file there when the
containing directory exists, and exit otherwise; return the resolved path. -/
def get_real_path (fs : FS) (filename : String) : PathResult :=
  let file_path := fs.resolve filename
  if fs.isdir file_path then PathResult.exited 1
  else if fs.pathExists file_path then PathResult.ok fs file_path
  else if fs.isdir (fs.dirname file_path) then
    PathResult.ok (createEmptyFile fs file_path) file_path
  else PathResult.exited 1

/-- A well-formed file system: a path at which a file (not a directory)
exists lies in an existing directory.  True of any real file system, and
needed to read "exactly when the parent directory does not exist" off the
code's `os.path.exists` test. -/
def WfFS (fs : FS) : Prop :=
  ∀ p, fs.pathExists p = true → fs.isdir p = false → fs.isdir (fs.dirname p) = true

/-- A concrete file system for witnesses: `/home` is the only directory, no
file exists yet, every path resolves to itself and has parent `/home`. -/
def fsMissing : FS :=
  { isdir := fun q => q == "/home"
    pathExists := fun _ => false
    dirname := fun _ => "/home"
    resolve := fun f => f }

/-- cli.py lines 138-150 in order: validate the todo path (line 138), then
the optional done path (lines 140-143), then open the validated todo path
and construct the core (lines 145-150).  `readLines` models what
`open(p).readlines()` yields at path `p` (or the EnvironmentError it
raises). -/
def mainLoadPhase (fs : FS) (todoFile : String) (doneFile : Option String)
    (readLines : String → Except IOErr (List String)) : LoadOutcome :=
  match get_real_path fs todoFile with
  | PathResult.exited c => LoadOutcome.exited c
  | PathResult.ok fs₁ todotxt_file_path =>
      match doneFile with
      | none => loadTodosStep todotxt_file_path none (readLines todotxt_file_path)
      | some df =>
          match get_real_path fs₁ df with
          | PathResult.exited c => LoadOutcome.exited c
          | PathResult.ok _ donetxt_file_path =>
              loadTodosStep todotxt_file_path (some donetxt_file_path)
                (readLines todotxt_file_path)

/-! ## Definitions: choosing the todo/done files (cli.py lines 123-143) -/

/-- Python truthiness of `arguments['TODOFILE']` (cli.py lines 126 and 135):
docopt yields None when the positional argument is absent, and the given
string otherwise; None and the empty string are falsy. -/
def pyTruthy : Option String → Bool
  | none => false
  | some s => !(s == "")

/-- cli.py lines 125-127 (and 134-136):
`f = dict(cfg.items('settings')).get(key, cliArg)` followed by
`if cliArg: f = cliArg` — the config value when present, the command-line
argument as the get() default, overridden by a truthy command-line
argument. -/
def selectFile (cfgValue : Option String) (cliArg : Option String) : Option String :=
  let fromGet :=
    match cfgValue with
    | some v => some v
    | none => cliArg
  if pyTruthy cliArg then cliArg else fromGet

/-- Outcome of the file-selection block: `exit_with_error` at cli.py line 130
(no todo file specified), or the chosen todo file plus optional done file. -/
inductive FileSelection where
  | exitErr
  | proceed (todoFile : String) (doneFile : Option String)
deriving DecidableEq

/-- cli.py lines 123-143: choose the todo file (exiting when the choice is
None, line 129-130) and the done file (which may remain None). -/
def selectTodoFiles (cfgFile cfgArchive cliTodo cliDone : Option String) :
    FileSelection :=
  match selectFile cfgFile cliTodo with
  | none => FileSelection.exitErr
  | some todoFile => FileSelection.proceed todoFile (selectFile cfgArchive cliDone)

/-! ## Definitions: get_boolean_config_option (cli.py lines 77-86) -/

/-- Python's `str(value)` for a config value: configparser with
allow_no_value stores a string or None, and `str(None)` is "None". -/
def pyStr : Option String → String
  | none => "None"
  | some s => s

/-- `dict(cfg.items(section)).get(option, ...)`: the section's options as an
association list; `none` when the option is absent. -/
def sectionGet (items : List (String × Option String)) (option : String) :
    Option (Option String) :=
  (items.find? fun kv => kv.1 == option).map fun kv => kv.2

/-- cli.py lines 77-86: `value = dict(cfg.items(section)).get(option, default)`;
then `value = True` when `type(value) != bool` and `str(value).lower()` is
'true' or '1', else `value = False`.  When the option is absent, `value` is
the bool `default`, so `type(value) != bool` fails and the else branch
returns False — the default is discarded.  When present, the value is a
string (or None under allow_no_value), never a bool. -/
def get_boolean_config_option (items : List (String × Option String))
    (option : String) (default : Bool) : Bool :=
  match sectionGet items option with
  | none => false
  | some value =>
      if (pyStr value).toLower == "true" || (pyStr value).toLower == "1" then true
      else false

/-! ## Definitions: the task line parser and serializer (modelled from the spec) -/

/-- Modelled from the spec: the Task component (todotxt_machine/todo.py) is
not among the provided source files.  Spec §3/§4.1: a Task carries a
completed flag, optional completion and creation dates (kept as their
character sequences), an optional priority letter, the body text with
"+project" and "@context" tags interleaved as originally typed, and the
derived ordered project and context tag lists. -/
structure Task where
  completed : Bool
  completion_date : Option (List Char)
  creation_date : Option (List Char)
  priority : Option Char
  body : List Char
  projects : List (List Char)
  contexts : List (List Char)
deriving DecidableEq

/-- An ISO date `YYYY-MM-DD` as its ten characters. -/
def isIsoDate (l : List Char) : Bool :=
  match l with
  | [y1, y2, y3, y4, s1, m1, m2, s2, d1, d2] =>
      y1.isDigit && y2.isDigit && y3.isDigit && y4.isDigit && s1 == '-' &&
        m1.isDigit && m2.isDigit && s2 == '-' && d1.isDigit && d2.isDigit
  | _ => false

/-- Modelled from the spec: consume one ISO date token together with the
single space separating it from the rest of the line; any other shape is
left for the body. -/
def takeDate (s : List Char) : Option (List Char × List Char) :=
  if isIsoDate (s.take 10) then
    match s.drop 10 with
    | ' ' :: rest => some (s.take 10, rest)
    | _ => none
  else none

/-- Modelled from the spec: consume a priority token `(A)`..`(Z)` together
with the space separating it from the rest of the line. -/
def takePriority (s : List Char) : Option (Char × List Char) :=
  match s with
  | '(' :: c :: ')' :: ' ' :: rest =>
      if 'A' ≤ c && c ≤ 'Z' then some (c, rest) else none
  | _ => none

/-- The space-separated words of a body, for tag extraction. -/
def wordsOf : List Char → List (List Char)
  | [] => [[]]
  | c :: rest =>
      match wordsOf rest with
      | w :: ws => if c == ' ' then [] :: w :: ws else (c :: w) :: ws
      | [] => if c == ' ' then [[], []] else [[c]]

/-- The `+project` tags of a body, in order of appearance. -/
def projectsOf (body : List Char) : List (List Char) :=
  (wordsOf body).filter fun w => w.head? == some '+'

/-- The `@context` tags of a body, in order of appearance. -/
def contextsOf (body : List Char) : List (List Char) :=
  (wordsOf body).filter fun w => w.head? == some '@'

/-- A task from the parsed fields, with the tags derived (not removed) from
the body, which keeps its original text for round-trip serialization. -/
def mkTask (completed : Bool) (completion_date creation_date : Option (List Char))
    (priority : Option Char) (body : List Char) : Task :=
  { completed := completed
    completion_date := completion_date
    creation_date := creation_date
    priority := priority
    body := body
    projects := projectsOf body
    contexts := contextsOf body }

/-- Modelled from the spec (§4.1): after the completion marker, a first ISO
date is the completion date only when a second ISO date (the creation date)
follows; a single date is the creation date alone; a completed task carries
no priority. -/
def parseCompleted (rest : List Char) : Task :=
  match takeDate rest with
  | some (d1, rest1) =>
      match takeDate rest1 with
      | some (d2, rest2) => mkTask true (some d1) (some d2) none rest2
      | none => mkTask true none (some d1) none rest1
  | none => mkTask true none none none rest

/-- Modelled from the spec (§4.1): a non-completed line may begin with a
priority token and then a creation date; the remainder is body. -/
def parseNormal (s : List Char) : Task :=
  match takePriority s with
  | some (c, rest) =>
      match takeDate rest with
      | some (d, rest2) => mkTask false none (some d) (some c) rest2
      | none => mkTask false none none (some c) rest
  | none =>
      match takeDate s with
      | some (d, rest) => mkTask false none (some d) none rest
      | none => mkTask false none none none s

/-- Modelled from the spec (§4.1): `parse` never fails; the completion marker
`x ` sets the completed flag and is consumed; any line that does not match
the grammar keeps its text verbatim as body. -/
def parse (s : List Char) : Task :=
  match s with
  | 'x' :: ' ' :: rest => parseCompleted rest
  | _ => parseNormal s

/-- Modelled from the spec (§4.1): `to_text` reconstructs the line in the
order `parse` consumed it — completion marker, completion date, priority,
creation date, body — each consumed field with its following space. -/
def to_text (t : Task) : List Char :=
  (if t.completed then ['x', ' '] else []) ++
    (match t.completion_date with
     | some d => d ++ [' ']
     | none => []) ++
    (match t.priority with
     | some c => ['(', c, ')', ' ']
     | none => []) ++
    (match t.creation_date with
     | some d => d ++ [' ']
     | none => []) ++
    t.body

/-- `parse` at the String level. -/
def parseLine (L : String) : Task := parse L.data

/-- `to_text` at the String level. -/
def serializeTask (t : Task) : String := String.mk (to_text t)

/-! ## Theorems: the file-watch handler (claims C3, C6, C7) -/

/-- C3 counterexample: on a concrete file-changed event the handler does not
merely post a signal for the UI loop; its action list is not made of
`postSignal` actions. -/
theorem on_modified_not_signal_only :
    ¬ (∀ a ∈ AutoLoad.on_modified ⟨"/home/user/todo.txt", false⟩,
        a = HandlerAction.postSignal) := by
  decide

/-- C3 (amended): the file-watch handler never posts a signal for the UI loop
to drain; for every file-changed event it performs the reload and the redraw
itself (reload_todos_from_file, then draw_screen) on the watchdog notification
thread. -/
theorem on_modified_reloads_directly :
    ∀ e : FileEvent,
      AutoLoad.on_modified e =
        [HandlerAction.reloadTodosFromFile, HandlerAction.drawScreen] ∧
      HandlerAction.postSignal ∉ AutoLoad.on_modified e := by
  intro e
  refine ⟨rfl, ?_⟩
  show HandlerAction.postSignal ∉
    [HandlerAction.reloadTodosFromFile, HandlerAction.drawScreen]
  decide

/-- C6 counterexample: a burst of two consecutive change events triggers two
reloads, not at most one — there is no debouncing. -/
theorem two_events_two_reloads :
    ¬ (reloadsTriggered
        [⟨"/home/user/todo.txt", false⟩, ⟨"/home/user/todo.txt", false⟩] ≤ 1) := by
  decide

/-- C6 (amended): no debouncing is performed; every change event triggers its
own reload, so a burst of n consecutive change events triggers exactly n
reloads. -/
theorem reloads_equal_burst_length :
    ∀ burst : List FileEvent, reloadsTriggered burst = burst.length := by
  intro burst
  induction burst with
  | nil => rfl
  | cons e rest ih =>
      simp [reloadsTriggered, AutoLoad.on_modified, isReload] at ih ⊢
      omega

/-- C7: the handler's behaviour is independent of the event payload — any two
file-changed events produce the identical action sequence, namely the re-read
of the configured todo path followed by a redraw. -/
theorem on_modified_payload_independent :
    ∀ e₁ e₂ : FileEvent,
      AutoLoad.on_modified e₁ = AutoLoad.on_modified e₂ ∧
      AutoLoad.on_modified e₁ =
        [HandlerAction.reloadTodosFromFile, HandlerAction.drawScreen] := by
  intro e₁ e₂
  exact ⟨rfl, rfl⟩

/-! ## Theorems: startup load (claim C1) and shutdown (claim C2) -/

/-- C1 (the code contradicts the claim): when opening the configured todo
file raises an EnvironmentError at startup, the program terminates with exit
code 1 — the claimed fallback to an empty in-memory `Todos([], ...)` (line
150) is unreachable after `exit_with_error`, so the session does not
continue. -/
theorem startup_open_failure_exits :
    loadTodosStep "/home/user/todo.txt" none
        (Except.error (IOErr.envError "Permission denied")) =
      LoadOutcome.exited 1 ∧
    (∀ t : Todos, LoadOutcome.exited 1 ≠ LoadOutcome.running t) := by
  refine ⟨rfl, ?_⟩
  intro t h
  exact LoadOutcome.noConfusion h

/-- C2: on every normal shutdown path (the UI loop returning, for every
outcome of the save), the final synchronous save is attempted, no normal
process exit precedes it, and the sequence ends either with the normal exit
(save completed) or with the save's error surfacing out of main (failure
reported). -/
theorem final_save_before_exit (r : Except IOErr Unit) :
    (∃ pre post, mainShutdown r = pre ++ ShutdownEv.saveAttempt :: post ∧
        ShutdownEv.exitNormal ∉ pre) ∧
    (match r with
     | Except.ok _ => (mainShutdown r).getLast? = some ShutdownEv.exitNormal
     | Except.error e => (mainShutdown r).getLast? = some (ShutdownEv.uncaughtError e)) := by
  cases r with
  | ok u =>
      refine ⟨⟨[ShutdownEv.observerStop, ShutdownEv.observerJoin],
        [ShutdownEv.exitNormal], rfl, ?_⟩, ?_⟩
      · decide
      · rfl
  | error e =>
      refine ⟨⟨[ShutdownEv.observerStop, ShutdownEv.observerJoin],
        [ShutdownEv.uncaughtError e], rfl, ?_⟩, ?_⟩
      · decide
      · rfl

/-! ## Theorems: path validation (claims C5, C10) -/

/-- Case analysis of `get_real_path`: the four branches of cli.py lines 63-74,
each with the conditions that select it and the result it produces. -/
theorem get_real_path_spec (fs : FS) (filename : String) :
    (fs.isdir (fs.resolve filename) = true ∧
       get_real_path fs filename = PathResult.exited 1) ∨
    (fs.isdir (fs.resolve filename) = false ∧
       fs.pathExists (fs.resolve filename) = true ∧
       get_real_path fs filename = PathResult.ok fs (fs.resolve filename)) ∨
    (fs.isdir (fs.resolve filename) = false ∧
       fs.pathExists (fs.resolve filename) = false ∧
       fs.isdir (fs.dirname (fs.resolve filename)) = true ∧
       get_real_path fs filename =
         PathResult.ok (createEmptyFile fs (fs.resolve filename)) (fs.resolve filename)) ∨
    (fs.isdir (fs.resolve filename) = false ∧
       fs.pathExists (fs.resolve filename) = false ∧
       fs.isdir (fs.dirname (fs.resolve filename)) = false ∧
       get_real_path fs filename = PathResult.exited 1) := by
  by_cases h1 : fs.isdir (fs.resolve filename) = true
  · exact Or.inl ⟨h1, by simp [get_real_path, h1]⟩
  · have h1f : fs.isdir (fs.resolve filename) = false := by
      simpa using h1
    by_cases h2 : fs.pathExists (fs.resolve filename) = true
    · exact Or.inr (Or.inl ⟨h1f, h2, by simp [get_real_path, h1f, h2]⟩)
    · have h2f : fs.pathExists (fs.resolve filename) = false := by
        simpa using h2
      by_cases h3 : fs.isdir (fs.dirname (fs.resolve filename)) = true
      · exact Or.inr (Or.inr (Or.inl
          ⟨h1f, h2f, h3, by simp [get_real_path, h1f, h2f, h3]⟩))
      · have h3f : fs.isdir (fs.dirname (fs.resolve filename)) = false := by
          simpa using h3
        exact Or.inr (Or.inr (Or.inr
          ⟨h1f, h2f, h3f, by simp [get_real_path, h1f, h2f, h3f]⟩))

/-- `loadTodosStep` constructs the core on exactly the todo path it was
given. -/
theorem loadTodosStep_file_path {tp : String} {dp : Option String}
    {r : Except IOErr (List String)} {t : Todos}
    (h : loadTodosStep tp dp r = LoadOutcome.running t) : t.file_path = tp := by
  cases r with
  | ok fileLines =>
      simp only [loadTodosStep] at h
      injection h with h'
      rw [← h']
  | error e => exact LoadOutcome.noConfusion h

/-- C5: `get_real_path` either terminates the process with an error or
returns a resolved path at which a file (not a directory) exists; and
whenever the main load phase reaches the construction of the core, the todo
path handed to the core is one `get_real_path` returned validated. -/
theorem get_real_path_validates (fs : FS) (filename : String) :
    ((∃ c, get_real_path fs filename = PathResult.exited c) ∨
      (∃ fs₁, get_real_path fs filename = PathResult.ok fs₁ (fs.resolve filename) ∧
        fs₁.pathExists (fs.resolve filename) = true ∧
        fs₁.isdir (fs.resolve filename) = false)) ∧
    (∀ doneFile readLines t,
        mainLoadPhase fs filename doneFile readLines = LoadOutcome.running t →
        ∃ fs₁, get_real_path fs filename = PathResult.ok fs₁ t.file_path) := by
  constructor
  · rcases get_real_path_spec fs filename with
      ⟨h1, he⟩ | ⟨h1, h2, he⟩ | ⟨h1, h2, h3, he⟩ | ⟨h1, h2, h3, he⟩
    · exact Or.inl ⟨1, he⟩
    · exact Or.inr ⟨fs, he, h2, h1⟩
    · refine Or.inr ⟨createEmptyFile fs (fs.resolve filename), he, ?_, h1⟩
      simp [createEmptyFile]
    · exact Or.inl ⟨1, he⟩
  · intro doneFile readLines t h
    cases hgr : get_real_path fs filename with
    | ok fs₁ p =>
        have hp : t.file_path = p := by
          cases doneFile with
          | none =>
              simp only [mainLoadPhase, hgr] at h
              exact loadTodosStep_file_path h
          | some df =>
              cases hgr2 : get_real_path fs₁ df with
              | ok fs₂ dp =>
                  simp only [mainLoadPhase, hgr, hgr2] at h
                  exact loadTodosStep_file_path h
              | exited c =>
                  simp only [mainLoadPhase, hgr, hgr2] at h
                  exact LoadOutcome.noConfusion h
        rw [hp]
        exact ⟨fs₁, rfl⟩
    | exited c =>
        simp only [mainLoadPhase, hgr] at h
        exact LoadOutcome.noConfusion h

/-- C10: on a well-formed file system, when the resolved path is not a
directory, no file exists there, and the containing directory exists,
`get_real_path` silently creates an empty file at the resolved path (which
then exists); and it terminates the process with an error exactly when the
resolved path is a directory or its containing directory does not exist. -/
theorem get_real_path_create_and_exit (fs : FS) (filename : String)
    (hwf : WfFS fs) :
    (fs.isdir (fs.resolve filename) = false →
      fs.pathExists (fs.resolve filename) = false →
      fs.isdir (fs.dirname (fs.resolve filename)) = true →
      get_real_path fs filename =
        PathResult.ok (createEmptyFile fs (fs.resolve filename)) (fs.resolve filename) ∧
      (createEmptyFile fs (fs.resolve filename)).pathExists (fs.resolve filename) = true) ∧
    ((∃ c, get_real_path fs filename = PathResult.exited c) ↔
      (fs.isdir (fs.resolve filename) = true ∨
        fs.isdir (fs.dirname (fs.resolve filename)) = false)) := by
  constructor
  · intro h1 h2 h3
    constructor
    · simp [get_real_path, h1, h2, h3]
    · simp [createEmptyFile]
  · constructor
    · rintro ⟨c, hc⟩
      rcases get_real_path_spec fs filename with
        ⟨h1, he⟩ | ⟨h1, h2, he⟩ | ⟨h1, h2, h3, he⟩ | ⟨h1, h2, h3, he⟩
      · exact Or.inl h1
      · rw [he] at hc
        exact PathResult.noConfusion hc
      · rw [he] at hc
        exact PathResult.noConfusion hc
      · exact Or.inr h3
    · intro h
      rcases get_real_path_spec fs filename with
        ⟨h1, he⟩ | ⟨h1, h2, he⟩ | ⟨h1, h2, h3, he⟩ | ⟨h1, h2, h3, he⟩
      · exact ⟨1, he⟩
      · rcases h with h | h
        · rw [h1] at h
          exact Bool.noConfusion h
        · have hpar := hwf (fs.resolve filename) h2 h1
          rw [hpar] at h
          exact Bool.noConfusion h
      · rcases h with h | h
        · rw [h1] at h
          exact Bool.noConfusion h
        · rw [h3] at h
          exact Bool.noConfusion h
      · exact ⟨1, he⟩

/-- C10 witness: on the concrete file system `fsMissing` (no file at the
resolved path, containing directory present), `get_real_path` creates the
empty file and returns the path, at which a file then exists. -/
theorem get_real_path_create_witness :
    get_real_path fsMissing "/home/todo.txt" =
      PathResult.ok (createEmptyFile fsMissing "/home/todo.txt") "/home/todo.txt" ∧
    (createEmptyFile fsMissing "/home/todo.txt").pathExists "/home/todo.txt" = true := by
  have hwf : WfFS fsMissing := by
    intro p hp hd
    simp [fsMissing] at hp
  have h := get_real_path_create_and_exit fsMissing "/home/todo.txt" hwf
  exact h.1 (by decide) (by decide) (by decide)

/-! ## Theorems: file selection (claim C8) -/

/-- `selectFile` yields None exactly when the config has no value and the
command line supplied none. -/
theorem selectFile_eq_none (cfgValue cliArg : Option String) :
    selectFile cfgValue cliArg = none ↔ (cfgValue = none ∧ cliArg = none) := by
  cases cfgValue with
  | some v =>
      cases cliArg with
      | none => simp [selectFile, pyTruthy]
      | some s =>
          by_cases hs : s = "" <;> simp [selectFile, pyTruthy, hs]
  | none =>
      cases cliArg with
      | none => simp [selectFile, pyTruthy]
      | some s =>
          by_cases hs : s = "" <;> simp [selectFile, pyTruthy, hs]

/-- C8 counterexample: with a config 'file' setting present and the
command-line TODOFILE supplied as the empty string, the config value is used,
not the supplied argument — the command-line argument does not take
precedence whenever supplied. -/
theorem empty_todofile_arg_loses :
    selectTodoFiles (some "from-config.txt") none (some "") none =
      FileSelection.proceed "from-config.txt" none ∧
    FileSelection.proceed "from-config.txt" none ≠ FileSelection.proceed "" none := by
  constructor
  · rfl
  · decide

/-- C8 (amended): a non-empty command-line TODOFILE takes precedence over the
config 'file' setting; a falsy (absent or empty) one leaves the get() result,
which is the config value when present and the command-line argument
otherwise; the program exits with the no-todo-file error exactly when
TODOFILE was not supplied and the config has no 'file' setting.  DONEFILE
over 'archive' follows the same selection, with no exit. -/
theorem todo_file_precedence (cfgFile cfgArchive cliTodo cliDone : Option String) :
    (∀ s, cliTodo = some s → s ≠ "" →
        selectTodoFiles cfgFile cfgArchive cliTodo cliDone =
          FileSelection.proceed s (selectFile cfgArchive cliDone)) ∧
    (pyTruthy cliTodo = false →
        selectFile cfgFile cliTodo =
          (match cfgFile with
           | some v => some v
           | none => cliTodo)) ∧
    (selectTodoFiles cfgFile cfgArchive cliTodo cliDone = FileSelection.exitErr ↔
        (cfgFile = none ∧ cliTodo = none)) := by
  refine ⟨?_, ?_, ?_⟩
  · intro s hs hne
    subst hs
    have ht : pyTruthy (some s) = true := by
      simp [pyTruthy, hne]
    simp [selectTodoFiles, selectFile, ht]
  · intro hf
    simp [selectFile, hf]
  · rw [← selectFile_eq_none cfgFile cliTodo]
    cases h : selectFile cfgFile cliTodo with
    | none => simp [selectTodoFiles, h]
    | some tf => simp [selectTodoFiles, h]

/-! ## Theorems: get_boolean_config_option (claim C9) -/

/-- C9: `get_boolean_config_option` returns True exactly when the option is
present in the section with a value whose lowercased string form is "true" or
"1"; in every other case — the absent case included, whatever default the
caller passed — it returns False. -/
theorem get_boolean_config_option_spec (items : List (String × Option String))
    (option : String) (default : Bool) :
    (get_boolean_config_option items option default = true ↔
      ∃ v, sectionGet items option = some v ∧
        ((pyStr v).toLower = "true" ∨ (pyStr v).toLower = "1")) ∧
    (sectionGet items option = none →
      get_boolean_config_option items option default = false) := by
  constructor
  · cases h : sectionGet items option with
    | none => simp [get_boolean_config_option, h]
    | some v => simp [get_boolean_config_option, h]
  · intro h
    simp [get_boolean_config_option, h]

/-! ## Theorems: round-trip of the task line parser (claim C4) -/

/-- A successful `takeDate` consumed exactly the date and one space. -/
theorem takeDate_eq {s d rest : List Char} (h : takeDate s = some (d, rest)) :
    s = d ++ ' ' :: rest := by
  unfold takeDate at h
  split at h
  · split at h
    next rest' heq =>
      simp only [Option.some.injEq, Prod.mk.injEq] at h
      obtain ⟨hd, hr⟩ := h
      subst hd
      subst hr
      conv_lhs => rw [← List.take_append_drop 10 s]
      rw [heq]
    next =>
      exact Option.noConfusion h
  · exact Option.noConfusion h

/-- A successful `takePriority` consumed exactly the token and one space. -/
theorem takePriority_eq {s : List Char} {c : Char} {rest : List Char}
    (h : takePriority s = some (c, rest)) :
    s = '(' :: c :: ')' :: ' ' :: rest := by
  unfold takePriority at h
  split at h
  next c' rest' =>
    split at h
    · simp only [Option.some.injEq, Prod.mk.injEq] at h
      obtain ⟨hc, hr⟩ := h
      subst hc
      subst hr
      rfl
    · exact Option.noConfusion h
  next =>
    exact Option.noConfusion h

/-- Serializing a completed line's parse reproduces the consumed text. -/
theorem to_text_parseCompleted (rest : List Char) :
    to_text (parseCompleted rest) = 'x' :: ' ' :: rest := by
  cases h1 : takeDate rest with
  | none => simp [parseCompleted, h1, to_text, mkTask]
  | some p1 =>
      obtain ⟨d1, rest1⟩ := p1
      have e1 := takeDate_eq h1
      simp only [parseCompleted, h1]
      cases h2 : takeDate rest1 with
      | none => simp [to_text, mkTask, e1]
      | some p2 =>
          obtain ⟨d2, rest2⟩ := p2
          have e2 := takeDate_eq h2
          simp [to_text, mkTask, e1, e2]

/-- Serializing a non-completed line's parse reproduces the line. -/
theorem to_text_parseNormal (s : List Char) :
    to_text (parseNormal s) = s := by
  cases hp : takePriority s with
  | none =>
      simp only [parseNormal, hp]
      cases hd : takeDate s with
      | none => simp [to_text, mkTask]
      | some p =>
          obtain ⟨d, rest⟩ := p
          have e := takeDate_eq hd
          simp [to_text, mkTask, e]
  | some p =>
      obtain ⟨c, rest⟩ := p
      have e := takePriority_eq hp
      simp only [parseNormal, hp]
      cases hd : takeDate rest with
      | none => simp [to_text, mkTask, e]
      | some p2 =>
          obtain ⟨d, rest2⟩ := p2
          have e2 := takeDate_eq hd
          simp [to_text, mkTask, e, e2]

/-- Round-trip at the character level: serializing any line's parse
reproduces the line exactly. -/
theorem to_text_parse (s : List Char) : to_text (parse s) = s := by
  unfold parse
  split
  · exact to_text_parseCompleted _
  · exact to_text_parseNormal _

/-- C4: for every line L, well-formed or malformed under the todo.txt
grammar, parsing L into a Task and serializing it back yields exactly L. -/
theorem parse_to_text_roundtrip (L : String) :
    serializeTask (parseLine L) = L := by
  obtain ⟨data⟩ := L
  show String.mk (to_text (parse data)) = String.mk data
  rw [to_text_parse]

example : (parseLine "(A) Buy milk +errand").priority = some 'A' ∧
    (parseLine "(A) Buy milk +errand").completed = false ∧
    (parseLine "(A) Buy milk +errand").projects = ["+errand".data] := by
  decide

example :
    (parseLine "x 2024-01-01 2023-12-31 Call mom @phone").completed = true ∧
    (parseLine "x 2024-01-01 2023-12-31 Call mom @phone").completion_date =
      some "2024-01-01".data ∧
    (parseLine "x 2024-01-01 2023-12-31 Call mom @phone").creation_date =
      some "2023-12-31".data ∧
    (parseLine "x 2024-01-01 2023-12-31 Call mom @phone").contexts =
      ["@phone".data] := by
  decide

example : (parseLine "x 2024-01-01 only one date").completion_date = none ∧
    (parseLine "x 2024-01-01 only one date").creation_date =
      some "2024-01-01".data := by
  decide

example : (parseLine "not a (B) priority").priority = none ∧
    (parseLine "not a (B) priority").body = "not a (B) priority".data := by
  decide

end TodotxtMachine
